import Mathlib

/-!
Verification development for the demand-letter backend
(`backend/services/letter_service`): a shallow embedding of the
DOCX generator (`docx_generator.py`), the HTML-to-document builder
(`HTMLToDocxParser`), and the finalize/export orchestration
(`logic.py`, `router.py`, `schemas.py`), together with theorems
settling the specification's claims about them.

Strings manipulated character by character are embedded as `List Char`;
opaque strings (HTML content, URLs, buckets) stay `String`.
-/

/-! ## Python string primitives -/

/-- Python whitespace, the set shared by `str.strip()` and the regex class
`\s` on `str` patterns (29 codepoints): the ASCII range tab..carriage
return and the space, the information separators `\x1c`..`\x1f`, next line
`\x85`, no-break space `\xa0`, ogham space mark `\u1680`, the en
quad..hair space range `\u2000`..`\u200a`, line and paragraph separators
`\u2028`/`\u2029`, narrow no-break space `\u202f`, medium mathematical
space `\u205f`, and ideographic space `\u3000`. -/
def pyIsSpace (c : Char) : Bool :=
  ('\t' ≤ c && c ≤ '\r') || c = ' '
    || ('\x1c' ≤ c && c ≤ '\x1f') || c = '\x85' || c = '\xa0'
    || c = '\u1680' || ('\u2000' ≤ c && c ≤ '\u200a')
    || c = '\u2028' || c = '\u2029' || c = '\u202f' || c = '\u205f' || c = '\u3000'

/-- Python `str.strip()`: drop leading and trailing whitespace. -/
def pyStrip (s : List Char) : List Char :=
  ((s.dropWhile pyIsSpace).reverse.dropWhile pyIsSpace).reverse

/-- Decimal digits of a natural number, most significant first; the first
argument is fuel (structural recursion so that the kernel can evaluate it). -/
def decimalDigitsAux : Nat → Nat → List Char
  | 0, _ => []
  | fuel + 1, n =>
    if n < 10 then [Nat.digitChar n]
    else decimalDigitsAux fuel (n / 10) ++ [Nat.digitChar (n % 10)]

/-- Python `str(n)` for a natural number. -/
def decimalDigits (n : Nat) : List Char := decimalDigitsAux (n + 1) n

/-- Python `%m` / `%d` strftime fields: zero-padded to two digits. -/
def pad2 (n : Nat) : List Char :=
  if n < 10 then '0' :: decimalDigits n else decimalDigits n

/-- The date part of a Python `datetime` (the only part
`generate_filename` uses, via `strftime "%Y-%m-%d"`). -/
structure PyDate where
  year : Nat
  month : Nat
  day : Nat
deriving DecidableEq

/-- `date.strftime("%Y-%m-%d")`: glibc renders `%Y` unpadded,
`%m` and `%d` zero-padded to two digits. -/
def formatDate (d : PyDate) : List Char :=
  decimalDigits d.year ++ '-' :: pad2 d.month ++ '-' :: pad2 d.day

/-! ## Filename generator (`docx_generator.generate_filename`) -/

/-- The character class kept by `re.sub(r'[^a-zA-Z0-9\s_-]', '', title)`:
ASCII alphanumerics, Python whitespace (`pyIsSpace`), underscore,
hyphen. -/
def allowedInFilename (c : Char) : Bool :=
  ('a' ≤ c && c ≤ 'z') || ('A' ≤ c && c ≤ 'Z') || ('0' ≤ c && c ≤ '9')
    || pyIsSpace c || c = '_' || c = '-'

/-- `re.sub(r'[^a-zA-Z0-9\s_-]', '', title)`. -/
def stripDisallowed (s : List Char) : List Char := s.filter allowedInFilename

/-- Worker for `collapseSpaces`; the flag records whether the previous
character was whitespace (so a run of whitespace emits one underscore). -/
def collapseSpacesAux : Bool → List Char → List Char
  | _, [] => []
  | inSpace, c :: rest =>
    if pyIsSpace c then
      if inSpace then collapseSpacesAux true rest
      else '_' :: collapseSpacesAux true rest
    else c :: collapseSpacesAux false rest

/-- `re.sub(r'\s+', '_', s)`: each maximal whitespace run becomes `_`. -/
def collapseSpaces (s : List Char) : List Char := collapseSpacesAux false s

/-- The fixed filename head `"Demand_Letter_"`. -/
def fileNameHead : List Char := "Demand_Letter_".toList

/-- The fixed filename extension `".docx"`. -/
def docxExt : List Char := ".docx".toList

/-- `f"Demand_Letter_{title}_{date_str}.docx"`. -/
def composeFileName (title date_str : List Char) : List Char :=
  fileNameHead ++ title ++ '_' :: (date_str ++ docxExt)

/-- `docx_generator.generate_filename(letter_title, date)` with the date
supplied (the `date=None` default is resolved by the caller in `logic.py`).
Sanitizes the title, composes `Demand_Letter_<title>_<date>.docx`, and
truncates the title if the result exceeds 50 characters. -/
def generate_filename (letter_title : List Char) (date : PyDate) : List Char :=
  let date_str := formatDate date
  let sanitized_title := collapseSpaces (stripDisallowed letter_title)
  let filename := composeFileName sanitized_title date_str
  if filename.length > 50 then
    let max_title_length : Nat := 50 - 14 - 11 - 5
    if max_title_length > 0 then
      composeFileName (sanitized_title.take max_title_length) date_str
    else
      fileNameHead ++ (date_str ++ docxExt)
  else
    filename

/-! ## Document Model Builder (`HTMLToDocxParser`) -/

/-- A marker on the formatting stack (`self.formatting_stack` holds the
strings `'bold'` / `'italic'`). -/
inductive Fmt
  | bold
  | italic
deriving DecidableEq

/-- The paragraph style assigned when a block is opened
(python-docx styles `Normal`, `Heading 1..3`, `List Bullet`, `List Number`). -/
inductive BlockStyle
  | normal
  | heading1
  | heading2
  | heading3
  | listBullet
  | listNumber
deriving DecidableEq

/-- A text run: the normalized text plus the bold/italic flags applied
from the formatting stack by `_create_run`. -/
structure TextRun where
  text : List Char
  bold : Bool
  italic : Bool
deriving DecidableEq

/-- A block of the document model: a paragraph created by
`doc.add_paragraph()` with its style and its ordered runs. -/
structure Block where
  style : BlockStyle
  runs : List TextRun
deriving DecidableEq

/-- A marker on the list-context stack (`self.list_stack` holds
`'ul'` / `'ol'`). -/
inductive ListTag
  | ul
  | ol
deriving DecidableEq

/-- The mutable state of `HTMLToDocxParser`.  `current_paragraph`, when not
`None`, always references the most recently added block, so it is embedded
as the flag `hasCurrent` over the last element of `blocks`.  Both stacks
are embedded with the most recently pushed element first (Python appends
at the end of the list); `handle_endtag`'s removal of the most recently
pushed occurrence is then removal of the first occurrence. -/
structure ParserState where
  blocks : List Block
  hasCurrent : Bool
  formatting_stack : List Fmt
  list_stack : List ListTag
deriving DecidableEq

/-- The initial parser state (`__init__`). -/
def initState : ParserState :=
  { blocks := [], hasCurrent := false, formatting_stack := [], list_stack := [] }

/-- `self.doc.add_paragraph(style=...)`: appends a fresh block and makes it
current. -/
def add_paragraph (st : ParserState) (style : BlockStyle) : ParserState :=
  { st with blocks := st.blocks ++ [{ style := style, runs := [] }], hasCurrent := true }

/-- Remove the first occurrence of `x` (if any); with the stack stored most
recent first this is exactly the `pop` at the last occurrence index in
`handle_endtag`. -/
def removeFirstOcc (x : Fmt) : List Fmt → List Fmt
  | [] => []
  | y :: ys => if y = x then ys else y :: removeFirstOcc x ys

/-- `HTMLToDocxParser.handle_starttag`. -/
def handle_starttag (st : ParserState) (tag : List Char) : ParserState :=
  if tag = "p".toList then add_paragraph st .normal
  else if tag = "h1".toList then add_paragraph st .heading1
  else if tag = "h2".toList then add_paragraph st .heading2
  else if tag = "h3".toList then add_paragraph st .heading3
  else if tag = "strong".toList || tag = "b".toList then
    { st with formatting_stack := .bold :: st.formatting_stack }
  else if tag = "em".toList || tag = "i".toList then
    { st with formatting_stack := .italic :: st.formatting_stack }
  else if tag = "ul".toList then
    { st with list_stack := .ul :: st.list_stack }
  else if tag = "ol".toList then
    { st with list_stack := .ol :: st.list_stack }
  else if tag = "li".toList then
    match st.list_stack with
    | [] => add_paragraph st .normal
    | .ul :: _ => add_paragraph st .listBullet
    | .ol :: _ => add_paragraph st .listNumber
  else st

/-- `HTMLToDocxParser.handle_endtag`. -/
def handle_endtag (st : ParserState) (tag : List Char) : ParserState :=
  if tag = "p".toList || tag = "h1".toList || tag = "h2".toList || tag = "h3".toList then
    { st with hasCurrent := false }
  else if tag = "strong".toList || tag = "b".toList then
    if st.formatting_stack.contains .bold then
      { st with formatting_stack := removeFirstOcc .bold st.formatting_stack }
    else st
  else if tag = "em".toList || tag = "i".toList then
    if st.formatting_stack.contains .italic then
      { st with formatting_stack := removeFirstOcc .italic st.formatting_stack }
    else st
  else if tag = "ul".toList then
    match st.list_stack with
    | .ul :: rest => { st with list_stack := rest }
    | _ => st
  else if tag = "ol".toList then
    match st.list_stack with
    | .ol :: rest => { st with list_stack := rest }
    | _ => st
  else if tag = "li".toList then
    { st with hasCurrent := false }
  else st

/-- The text normalization performed by `handle_data`: split the data on
newlines; a line whose strip is non-empty contributes the stripped line, a
line whose strip is empty contributes a single space provided some part was
already collected; the parts are joined with `''.join` and stripped. -/
def normalizeText (data : List Char) : List Char :=
  let lines := data.splitOn '\n'
  let text_parts := lines.foldl
    (fun parts line =>
      let stripped := pyStrip line
      if stripped ≠ [] then parts ++ [stripped]
      else if parts ≠ [] then parts ++ [[' ']]
      else parts)
    []
  pyStrip text_parts.flatten

/-- Append a run to the last block (the current paragraph). -/
def appendRunLast : List Block → TextRun → List Block
  | [], _ => []
  | [b], r => [{ b with runs := b.runs ++ [r] }]
  | b :: bs, r => b :: appendRunLast bs r

/-- `_ensure_paragraph`: open an implicit paragraph when there is no
current one. -/
def ensure_paragraph (st : ParserState) : ParserState :=
  if st.hasCurrent then st else add_paragraph st .normal

/-- `HTMLToDocxParser.handle_data`: normalize, drop empty text, otherwise
create a run (via `_create_run`, which applies the formatting stack) in the
current paragraph. -/
def handle_data (st : ParserState) (data : List Char) : ParserState :=
  let text := normalizeText data
  if text = [] then st
  else
    let st := ensure_paragraph st
    let run : TextRun :=
      { text := text
        bold := st.formatting_stack.contains .bold
        italic := st.formatting_stack.contains .italic }
    { st with blocks := appendRunLast st.blocks run }

/-- A tokenizer event delivered to the builder's handlers. -/
inductive HtmlEvent
  | startTag (tag : List Char)
  | endTag (tag : List Char)
  | text (data : List Char)
deriving DecidableEq

/-- Dispatch one event to the matching handler. -/
def stepEvent (st : ParserState) : HtmlEvent → ParserState
  | .startTag t => handle_starttag st t
  | .endTag t => handle_endtag st t
  | .text d => handle_data st d

/-- Run the builder over a sequence of events from the initial state. -/
def buildDoc (events : List HtmlEvent) : ParserState :=
  events.foldl stepEvent initState

/-- Classify a raw tag body: a leading `/` marks an end tag; a start tag's
name is the body up to the first space (attributes are dropped). -/
def mkTagEvent (inner : List Char) : HtmlEvent :=
  match inner with
  | '/' :: name => .endTag name
  | _ => .startTag (inner.takeWhile (fun c => c ≠ ' '))

/-- If any text was accumulated (stored reversed), emit a Text event. -/
def flushText (acc : List Char) : List HtmlEvent :=
  if acc = [] then [] else [.text acc.reverse]

/-- Modelled from the spec: the HTML-subset tokenizer (§4.1) is Python's
stdlib `html.parser.HTMLParser`, which is not part of this repository's
sources; per §4.1 it streams the input and emits
`StartTag(name, attributes)`, `EndTag(name)` and `Text(content)` events.
This model scans the input once: outside a tag it accumulates text until
`<` (flushing it as a Text event), inside a tag it accumulates until `>`
and classifies the body as a start or end tag.  Faithful for the simple
attribute-free markup the claims exercise. -/
def tokenizeGo : Bool → List Char → List Char → List HtmlEvent
  | inTag, acc, [] => if inTag then [] else flushText acc
  | false, acc, c :: rest =>
    if c = '<' then flushText acc ++ tokenizeGo true [] rest
    else tokenizeGo false (c :: acc) rest
  | true, acc, c :: rest =>
    if c = '>' then mkTagEvent acc.reverse :: tokenizeGo false [] rest
    else tokenizeGo true (c :: acc) rest

/-- Tokenize an HTML input string into builder events. -/
def tokenize (s : List Char) : List HtmlEvent := tokenizeGo false [] s

/-- `parser.feed(html)`: tokenize the input and run the builder. -/
def feedHtml (s : List Char) : ParserState := buildDoc (tokenize s)

/-! ## Letter finalize/export orchestration (`logic.py`, `schemas.py`,
`router.py`)

IDs (UUIDs in the source) are embedded as `Nat`; timestamps as `PyDate`
(only the date part is observable through `generate_filename`).  The
SQLAlchemy session is embedded as the list of persisted letter rows: field
assignments on a fetched row become visible in the persisted state exactly
at `db.commit()`, which is where the embedding applies them.  Calls to the
S3 client and the commit are recorded in an event trace in program order. -/

/-- A row of `generated_letters` (`shared/models/letter.py`), with the
joined data the service reads (`template.name`, `source_documents`)
carried inline.  `updated_at` is set to the current time on update
(the column's `onupdate`). -/
structure DocumentMetadata where
  id : Nat
  filename : List Char
  file_size : Nat
  uploaded_at : PyDate
deriving DecidableEq

structure GeneratedLetter where
  id : Nat
  firm_id : Nat
  title : List Char
  content : String
  status : String
  template_id : Option Nat
  template_name : Option String
  source_documents : List DocumentMetadata
  docx_s3_key : Option (List Char)
  created_at : PyDate
  updated_at : PyDate
deriving DecidableEq

/-- The environment of one service call: settings (`s3_bucket_exports`),
the behavior of the S3 client's operations (success flags and the
presigned URL it would return per key), whether `html_to_docx` succeeds on
a given content, and the current time (`datetime.utcnow` used by the
`onupdate` column default). -/
structure Env where
  bucket : String
  uploadOk : Bool
  deleteOk : Bool
  presignOk : Bool
  url : List Char → String
  convertOk : String → Bool
  now : PyDate

/-- An externally visible effect, in program order. -/
inductive S3Event
  | put (bucket : String) (key : List Char)
  | delete (bucket : String) (key : List Char)
  | presign (bucket : String) (key : List Char)
  | dbCommit
deriving DecidableEq

/-- The exceptions `logic.py` raises (`shared/exceptions.py`). -/
inductive ServiceError
  | letterNotFound
  | forbidden
  | s3Upload (message : String)
  | valueError
deriving DecidableEq

/-- `schemas.LetterResponse`. -/
structure LetterResponse where
  id : Nat
  title : List Char
  content : String
  status : String
  template_id : Option Nat
  template_name : Option String
  source_documents : List DocumentMetadata
  docx_url : Option String
  created_at : PyDate
  updated_at : PyDate
deriving DecidableEq

/-- `schemas.ExportResponse`: the full schema of the export endpoint's
response body. -/
structure ExportResponse where
  download_url : String
  expires_in : Nat
  letter_id : Nat
  message : String
deriving DecidableEq

/-- `f"<firm_id>/letters/<filename>"`. -/
def s3KeyFor (firm_id : Nat) (filename : List Char) : List Char :=
  decimalDigits firm_id ++ "/letters/".toList ++ filename

/-- `db.query(GeneratedLetter).filter(GeneratedLetter.id == letter_id).first()`. -/
def dbFind (db : List GeneratedLetter) (letter_id : Nat) : Option GeneratedLetter :=
  db.find? (fun l => l.id == letter_id)

/-- Persist a modified row: every row with the same id is replaced. -/
def dbUpdate (db : List GeneratedLetter) (l : GeneratedLetter) : List GeneratedLetter :=
  db.map (fun x => if x.id == l.id then l else x)

/-- `logic.get_letter_by_id`: load, enforce firm isolation, presign the
docx key if present — a presign failure is swallowed (`docx_url` stays
`None`) — and build the `LetterResponse`. -/
def get_letter_by_id (env : Env) (db : List GeneratedLetter)
    (letter_id firm_id : Nat) :
    Except ServiceError LetterResponse × List S3Event :=
  match dbFind db letter_id with
  | none => (.error .letterNotFound, [])
  | some letter =>
    if letter.firm_id ≠ firm_id then (.error .forbidden, [])
    else
      match letter.docx_s3_key with
      | none =>
        (.ok { id := letter.id, title := letter.title, content := letter.content,
               status := letter.status, template_id := letter.template_id,
               template_name := letter.template_name,
               source_documents := letter.source_documents, docx_url := none,
               created_at := letter.created_at, updated_at := letter.updated_at }, [])
      | some key =>
        let docx_url := if env.presignOk then some (env.url key) else none
        (.ok { id := letter.id, title := letter.title, content := letter.content,
               status := letter.status, template_id := letter.template_id,
               template_name := letter.template_name,
               source_documents := letter.source_documents, docx_url := docx_url,
               created_at := letter.created_at, updated_at := letter.updated_at },
         [.presign env.bucket key])

/-- The outcome of one `finalize_letter` call: the returned value or
raised exception, the persisted database afterwards, and the trace of
external effects. -/
structure FinalizeOutcome where
  result : Except ServiceError LetterResponse
  db : List GeneratedLetter
  trace : List S3Event

/-- `logic.finalize_letter`: load and check ownership, record the old key,
generate the filename and new key, convert, upload (raising
`S3UploadException` on failure with nothing persisted), best-effort delete
the old artifact when it exists and differs, set
`status = "created"` / `docx_s3_key = new_key`, commit, and return
`get_letter_by_id` on the updated database. -/
def finalize_letter (env : Env) (db : List GeneratedLetter)
    (letter_id firm_id : Nat) : FinalizeOutcome :=
  match dbFind db letter_id with
  | none => ⟨.error .letterNotFound, db, []⟩
  | some letter =>
    if letter.firm_id ≠ firm_id then ⟨.error .forbidden, db, []⟩
    else
      let old_s3_key := letter.docx_s3_key
      let filename := generate_filename letter.title letter.updated_at
      let new_s3_key := s3KeyFor firm_id filename
      if ¬ env.convertOk letter.content then ⟨.error .valueError, db, []⟩
      else
        let t1 : List S3Event := [.put env.bucket new_s3_key]
        if ¬ env.uploadOk then
          ⟨.error (.s3Upload "Failed to upload DOCX file to S3"), db, t1⟩
        else
          let t2 := match old_s3_key with
            | some old_key =>
              if old_key ≠ new_s3_key then t1 ++ [.delete env.bucket old_key]
              else t1
            | none => t1
          let letter' := { letter with status := "created",
                                       docx_s3_key := some new_s3_key,
                                       updated_at := env.now }
          let db' := dbUpdate db letter'
          let t3 := t2 ++ [.dbCommit]
          let got := get_letter_by_id env db' letter_id firm_id
          ⟨got.1, db', t3 ++ got.2⟩

/-- The outcome of one `export_letter` call: the presigned URL or raised
exception, the persisted database afterwards, and the effect trace. -/
structure ExportOutcome where
  result : Except ServiceError String
  db : List GeneratedLetter
  trace : List S3Event

/-- `logic.export_letter`: load and check ownership, record the old key,
always regenerate and upload the artifact (raising `S3UploadException` on
upload failure with nothing persisted), commit
`docx_s3_key = new_key` immediately after the upload, then best-effort
delete the old artifact, then presign the new key (raising
`S3UploadException "Failed to generate download URL"` on presign
failure — after the commit). -/
def export_letter (env : Env) (db : List GeneratedLetter)
    (letter_id firm_id : Nat) : ExportOutcome :=
  match dbFind db letter_id with
  | none => ⟨.error .letterNotFound, db, []⟩
  | some letter =>
    if letter.firm_id ≠ firm_id then ⟨.error .forbidden, db, []⟩
    else
      let old_s3_key := letter.docx_s3_key
      let filename := generate_filename letter.title letter.updated_at
      let new_s3_key := s3KeyFor firm_id filename
      if ¬ env.convertOk letter.content then ⟨.error .valueError, db, []⟩
      else
        let t1 : List S3Event := [.put env.bucket new_s3_key]
        if ¬ env.uploadOk then
          ⟨.error (.s3Upload "Failed to upload DOCX file to S3"), db, t1⟩
        else
          let letter' := { letter with docx_s3_key := some new_s3_key,
                                       updated_at := env.now }
          let db' := dbUpdate db letter'
          let t2 := t1 ++ [.dbCommit]
          let t3 := match old_s3_key with
            | some old_key =>
              if old_key ≠ new_s3_key then t2 ++ [.delete env.bucket old_key]
              else t2
            | none => t2
          let t4 := t3 ++ [.presign env.bucket new_s3_key]
          if ¬ env.presignOk then
            ⟨.error (.s3Upload "Failed to generate download URL"), db', t4⟩
          else
            ⟨.ok (env.url new_s3_key), db', t4⟩

/-- The outcome of one call of the export endpoint. -/
structure ExportEndpointOutcome where
  result : Except ServiceError ExportResponse
  db : List GeneratedLetter
  trace : List S3Event

/-- `router.export_letter_endpoint`: call `export_letter` and wrap the URL
in an `ExportResponse` with `expires_in = 3600`, the letter id, and the
success message; exceptions propagate. -/
def export_letter_endpoint (env : Env) (db : List GeneratedLetter)
    (firm_id letter_id : Nat) : ExportEndpointOutcome :=
  let o := export_letter env db letter_id firm_id
  match o.result with
  | .ok download_url =>
    ⟨.ok { download_url := download_url, expires_in := 3600,
           letter_id := letter_id, message := "Letter exported successfully" },
     o.db, o.trace⟩
  | .error e => ⟨.error e, o.db, o.trace⟩

-- Equality of call results is decidable (used to evaluate the concrete
-- theorems below).
deriving instance DecidableEq for Except

/-! ## Abbreviations and concrete fixtures used by the theorems -/

/-- The new storage key a finalize/export call computes for a letter. -/
def newKey (fid : Nat) (letter : GeneratedLetter) : List Char :=
  s3KeyFor fid (generate_filename letter.title letter.updated_at)

/-- The row as persisted by a successful export call. -/
def exportedRow (env : Env) (fid : Nat) (letter : GeneratedLetter) : GeneratedLetter :=
  { letter with docx_s3_key := some (newKey fid letter), updated_at := env.now }

/-- The row as persisted by a successful finalize call. -/
def finalizedRow (env : Env) (fid : Nat) (letter : GeneratedLetter) : GeneratedLetter :=
  { letter with status := "created", docx_s3_key := some (newKey fid letter),
                updated_at := env.now }

/-- Is an event a `Put` call to the artifact store? -/
def isPut : S3Event → Bool
  | .put _ _ => true
  | _ => false


/-- A sample letter row: owned by firm 1, with an existing artifact stored
under `old/key.docx`. -/
def sampleLetter : GeneratedLetter :=
  { id := 1, firm_id := 1, title := "T".toList, content := "c", status := "draft",
    template_id := none, template_name := none, source_documents := [],
    docx_s3_key := some "old/key.docx".toList,
    created_at := ⟨2024, 1, 1⟩, updated_at := ⟨2024, 1, 15⟩ }

/-- An environment whose S3 client uploads and deletes successfully but
fails to presign. -/
def presignFailEnv : Env :=
  { bucket := "exports", uploadOk := true, deleteOk := true, presignOk := false,
    url := fun _ => "https://presigned.example", convertOk := fun _ => true,
    now := ⟨2024, 1, 16⟩ }

/-- An environment in which every S3 operation succeeds. -/
def okEnv : Env := { presignFailEnv with presignOk := true }

/-- An environment whose upload fails. -/
def uploadFailEnv : Env := { okEnv with uploadOk := false }

/-- Two letters identical except for their content and status, used to
show the export response carries no letter view. -/
def letterA : GeneratedLetter :=
  { sampleLetter with content := "content-A", status := "draft" }

def letterB : GeneratedLetter :=
  { sampleLetter with content := "content-B", status := "created" }

/-! ## Helper lemmas -/

theorem decimalDigitsAux_small (fuel n : Nat) (hf : 0 < fuel) (hn : n < 10) :
    decimalDigitsAux fuel n = [Nat.digitChar n] := by
  cases fuel with
  | zero => omega
  | succ f => simp [decimalDigitsAux, hn]

theorem decimalDigitsAux_step (fuel n : Nat) (h : ¬ n < 10) :
    decimalDigitsAux (fuel + 1) n
      = decimalDigitsAux fuel (n / 10) ++ [Nat.digitChar (n % 10)] := by
  rw [show decimalDigitsAux (fuel + 1) n
        = if n < 10 then [Nat.digitChar n]
          else decimalDigitsAux fuel (n / 10) ++ [Nat.digitChar (n % 10)] from rfl,
      if_neg h]

theorem decimalDigitsAux_length_le :
    ∀ (k fuel n : Nat), n < 10 ^ (k + 1) → (decimalDigitsAux fuel n).length ≤ k + 1 := by
  intro k
  induction k with
  | zero =>
    intro fuel n hn
    cases fuel with
    | zero => simp [decimalDigitsAux]
    | succ f => simp [decimalDigitsAux_small (f + 1) n (by omega) (by simpa using hn)]
  | succ j ih =>
    intro fuel n hn
    cases fuel with
    | zero => simp [decimalDigitsAux]
    | succ f =>
      by_cases h10 : n < 10
      · simp [decimalDigitsAux_small (f + 1) n (by omega) h10]
      · have hdiv : n / 10 < 10 ^ (j + 1) := by
          rw [Nat.div_lt_iff_lt_mul (by norm_num)]
          calc n < 10 ^ (j + 2) := hn
            _ = 10 ^ (j + 1) * 10 := by ring
        have := ih f (n / 10) hdiv
        rw [decimalDigitsAux_step f n h10, List.length_append]
        simp only [List.length_cons, List.length_nil]
        omega

theorem decimalDigitsAux_length_exact :
    ∀ (k fuel n : Nat), 10 ^ k ≤ n → n < 10 ^ (k + 1) → k ≤ fuel →
      (decimalDigitsAux (fuel + 1) n).length = k + 1 := by
  intro k
  induction k with
  | zero =>
    intro fuel n _ hn _
    simp [decimalDigitsAux_small (fuel + 1) n (by omega) (by simpa using hn)]
  | succ j ih =>
    intro fuel n hlo hhi hfuel
    have h10 : ¬ n < 10 := by
      have : (10 : Nat) ≤ 10 ^ (j + 1) := Nat.le_self_pow (by omega) 10
      omega
    obtain ⟨f, rfl⟩ : ∃ f, fuel = f + 1 := ⟨fuel - 1, by omega⟩
    have hdlo : 10 ^ j ≤ n / 10 := by
      rw [Nat.le_div_iff_mul_le (by norm_num)]
      calc 10 ^ j * 10 = 10 ^ (j + 1) := by ring
        _ ≤ n := hlo
    have hdhi : n / 10 < 10 ^ (j + 1) := by
      rw [Nat.div_lt_iff_lt_mul (by norm_num)]
      calc n < 10 ^ (j + 2) := hhi
        _ = 10 ^ (j + 1) * 10 := by ring
    have := ih f (n / 10) hdlo hdhi (by omega)
    rw [decimalDigitsAux_step (f + 1) n h10, List.length_append]
    simp only [List.length_cons, List.length_nil]
    omega

theorem decimalDigits_length_le (n : Nat) (h : n ≤ 9999) :
    (decimalDigits n).length ≤ 4 := by
  have := decimalDigitsAux_length_le 3 (n + 1) n (by omega)
  simpa [decimalDigits] using this

theorem decimalDigits_length_year (n : Nat) (hlo : 1000 ≤ n) (hhi : n ≤ 9999) :
    (decimalDigits n).length = 4 := by
  have := decimalDigitsAux_length_exact 3 n n (by omega) (by omega) (by omega)
  simpa [decimalDigits] using this

theorem pad2_length (n : Nat) (h : n ≤ 99) : (pad2 n).length = 2 := by
  by_cases h10 : n < 10
  · simp [pad2, h10, decimalDigits, decimalDigitsAux_small (n + 1) n (by omega) h10]
  · have := decimalDigitsAux_length_exact 1 n n (by omega) (by omega) (by omega)
    simp only [pad2, if_neg h10, decimalDigits]
    omega

theorem formatDate_length_le (d : PyDate) (hy : d.year ≤ 9999)
    (hm : d.month ≤ 12) (hd : d.day ≤ 31) : (formatDate d).length ≤ 10 := by
  have h1 := decimalDigits_length_le d.year hy
  have h2 := pad2_length d.month (by omega)
  have h3 := pad2_length d.day (by omega)
  simp only [formatDate, List.length_append, List.length_cons]
  omega

theorem suffix_append_right {α : Type} (l : List α) {s t : List α} (h : s <:+ t) :
    s <:+ l ++ t := by
  obtain ⟨u, rfl⟩ := h
  exact ⟨l ++ u, by simp⟩

theorem docxExt_suffix_compose (t d : List Char) : docxExt <:+ composeFileName t d := by
  have h1 : docxExt <:+ '_' :: (d ++ docxExt) :=
    suffix_append_right ['_'] (List.suffix_append d docxExt)
  exact suffix_append_right fileNameHead (suffix_append_right t h1)

theorem fileNameHead_length : fileNameHead.length = 14 := rfl

theorem docxExt_length : docxExt.length = 5 := rfl

theorem composeFileName_length (t d : List Char) :
    (composeFileName t d).length = 20 + t.length + d.length := by
  simp only [composeFileName, List.length_append, List.length_cons, fileNameHead_length,
    docxExt_length]
  omega

theorem collapseSpaces_nil : collapseSpaces [] = [] := rfl

theorem generate_filename_length (title : List Char) (d : PyDate)
    (hy : d.year ≤ 9999) (hm : d.month ≤ 12) (hd : d.day ≤ 31) :
    (generate_filename title d).length ≤ 50 := by
  have hdate := formatDate_length_le d hy hm hd
  have htake : ((collapseSpaces (stripDisallowed title)).take (50 - 14 - 11 - 5)).length
      ≤ 20 := by
    rw [List.length_take]; omega
  simp only [generate_filename]
  split
  · next hgt =>
      split
      · next => rw [composeFileName_length]; omega
      · next => simp only [List.length_append, fileNameHead_length, docxExt_length]; omega
  · next hle => omega

theorem generate_filename_all_stripped (title : List Char) (d : PyDate)
    (hall : ∀ c ∈ title, allowedInFilename c = false) :
    generate_filename title d = "Demand_Letter__".toList ++ (formatDate d ++ docxExt) := by
  have hnil : stripDisallowed title = [] := by
    apply List.filter_eq_nil_iff.mpr
    intro a ha
    simp [hall a ha]
  simp only [generate_filename, hnil, collapseSpaces_nil]
  split
  · next =>
      simp only [List.take_nil]
      norm_num
      rfl
  · next => rfl

theorem dbFind_some_id {db : List GeneratedLetter} {lid : Nat} {letter : GeneratedLetter}
    (h : dbFind db lid = some letter) : letter.id = lid := by
  have := List.find?_some h
  simpa using this

theorem dbFind_dbUpdate {db : List GeneratedLetter} {lid : Nat} {letter : GeneratedLetter}
    (l' : GeneratedLetter) (h : dbFind db lid = some letter) (hid : l'.id = letter.id) :
    dbFind (dbUpdate db l') lid = some l' := by
  have hlid : letter.id = lid := dbFind_some_id h
  induction db with
  | nil => simp [dbFind] at h
  | cons y ys ih =>
    simp only [dbUpdate, List.map_cons]
    by_cases hy : y.id = lid
    · have hcond : (y.id == l'.id) = true := by simp [hid, hlid, hy]
      have hl' : (l'.id == lid) = true := by simp [hid, hlid]
      rw [if_pos hcond]
      unfold dbFind
      simp only [List.find?_cons, hl']
    · have hy' : ¬ ((y.id == l'.id) = true) := by
        simp only [beq_iff_eq]
        rw [hid, hlid]
        exact hy
      rw [if_neg hy']
      have hcond : (y.id == lid) = false := by simp [hy]
      unfold dbFind at h ⊢
      simp only [List.find?_cons, hcond] at h ⊢
      exact ih h

theorem get_letter_by_id_eq (env : Env) (db : List GeneratedLetter) (lid fid : Nat)
    (letter : GeneratedLetter) (k : List Char)
    (hfind : dbFind db lid = some letter) (hfirm : letter.firm_id = fid)
    (hkey : letter.docx_s3_key = some k) :
    get_letter_by_id env db lid fid
      = (.ok { id := letter.id, title := letter.title, content := letter.content,
               status := letter.status, template_id := letter.template_id,
               template_name := letter.template_name,
               source_documents := letter.source_documents,
               docx_url := if env.presignOk then some (env.url k) else none,
               created_at := letter.created_at, updated_at := letter.updated_at },
         [.presign env.bucket k]) := by
  simp [get_letter_by_id, hfind, hfirm, hkey]

theorem export_upload_fail (env : Env) (db : List GeneratedLetter) (lid fid : Nat)
    (letter : GeneratedLetter)
    (hfind : dbFind db lid = some letter) (hfirm : letter.firm_id = fid)
    (hconv : env.convertOk letter.content = true) (hup : env.uploadOk = false) :
    export_letter env db lid fid
      = ⟨.error (.s3Upload "Failed to upload DOCX file to S3"), db,
         [.put env.bucket (newKey fid letter)]⟩ := by
  simp [export_letter, hfind, hfirm, hconv, hup, newKey]

theorem finalize_upload_fail (env : Env) (db : List GeneratedLetter) (lid fid : Nat)
    (letter : GeneratedLetter)
    (hfind : dbFind db lid = some letter) (hfirm : letter.firm_id = fid)
    (hconv : env.convertOk letter.content = true) (hup : env.uploadOk = false) :
    finalize_letter env db lid fid
      = ⟨.error (.s3Upload "Failed to upload DOCX file to S3"), db,
         [.put env.bucket (newKey fid letter)]⟩ := by
  simp [finalize_letter, hfind, hfirm, hconv, hup, newKey]

theorem export_result_db (env : Env) (db : List GeneratedLetter) (lid fid : Nat)
    (letter : GeneratedLetter)
    (hfind : dbFind db lid = some letter) (hfirm : letter.firm_id = fid)
    (hconv : env.convertOk letter.content = true) (hup : env.uploadOk = true) :
    (export_letter env db lid fid).result
        = (if env.presignOk then .ok (env.url (newKey fid letter))
           else .error (.s3Upload "Failed to generate download URL"))
    ∧ (export_letter env db lid fid).db = dbUpdate db (exportedRow env fid letter) := by
  constructor
  · simp only [export_letter, hfind, hfirm, hconv, hup]
    by_cases hp : env.presignOk <;> simp [hp, newKey]
  · simp only [export_letter, hfind, hfirm, hconv, hup]
    by_cases hp : env.presignOk <;> simp [hp, exportedRow, newKey, hfirm]

theorem export_trace_put_count (env : Env) (db : List GeneratedLetter) (lid fid : Nat)
    (letter : GeneratedLetter)
    (hfind : dbFind db lid = some letter) (hfirm : letter.firm_id = fid)
    (hconv : env.convertOk letter.content = true) (hup : env.uploadOk = true) :
    (export_letter env db lid fid).trace.countP isPut = 1 := by
  simp only [export_letter, hfind, hfirm, hconv, hup]
  cases hk : letter.docx_s3_key with
  | none =>
    by_cases hp : env.presignOk <;>
      simp [hp, isPut, List.countP_append, List.countP_cons]
  | some old_key =>
    by_cases he : old_key = s3KeyFor fid (generate_filename letter.title letter.updated_at) <;>
      by_cases hp : env.presignOk <;>
        simp [hp, he, isPut, List.countP_append, List.countP_cons]

theorem finalize_success (env : Env) (db : List GeneratedLetter) (lid fid : Nat)
    (letter : GeneratedLetter)
    (hfind : dbFind db lid = some letter) (hfirm : letter.firm_id = fid)
    (hconv : env.convertOk letter.content = true) (hup : env.uploadOk = true) :
    (finalize_letter env db lid fid).result
      = .ok { id := letter.id, title := letter.title, content := letter.content,
              status := "created", template_id := letter.template_id,
              template_name := letter.template_name,
              source_documents := letter.source_documents,
              docx_url := if env.presignOk then some (env.url (newKey fid letter)) else none,
              created_at := letter.created_at, updated_at := env.now }
    ∧ (finalize_letter env db lid fid).db = dbUpdate db (finalizedRow env fid letter) := by
  have hfind' : dbFind (dbUpdate db (finalizedRow env fid letter)) lid
      = some (finalizedRow env fid letter) :=
    dbFind_dbUpdate _ hfind rfl
  have hget := get_letter_by_id_eq env (dbUpdate db (finalizedRow env fid letter)) lid fid
    (finalizedRow env fid letter) (newKey fid letter) hfind'
    (by simp [finalizedRow, hfirm]) (by simp [finalizedRow])
  simp only [finalizedRow, newKey, hfirm] at hget ⊢
  constructor
  · simp only [finalize_letter, hfind, hfirm, hconv, hup]
    simp [hget, finalizedRow, hfirm]
  · simp only [finalize_letter, hfind, hfirm, hconv, hup]
    simp [hget, finalizedRow, hfirm]

theorem finalize_trace_cleanup (env : Env) (db : List GeneratedLetter) (lid fid : Nat)
    (letter : GeneratedLetter) (old_key : List Char)
    (hfind : dbFind db lid = some letter) (hfirm : letter.firm_id = fid)
    (hconv : env.convertOk letter.content = true) (hup : env.uploadOk = true)
    (hold : letter.docx_s3_key = some old_key) (hne : old_key ≠ newKey fid letter) :
    (finalize_letter env db lid fid).trace
      = [.put env.bucket (newKey fid letter), .delete env.bucket old_key, .dbCommit,
         .presign env.bucket (newKey fid letter)] := by
  have hfind' : dbFind (dbUpdate db (finalizedRow env fid letter)) lid
      = some (finalizedRow env fid letter) :=
    dbFind_dbUpdate _ hfind rfl
  have hget := get_letter_by_id_eq env (dbUpdate db (finalizedRow env fid letter)) lid fid
    (finalizedRow env fid letter) (newKey fid letter) hfind'
    (by simp [finalizedRow, hfirm]) (by simp [finalizedRow])
  have hne' : old_key ≠ s3KeyFor fid (generate_filename letter.title letter.updated_at) := by
    simpa [newKey] using hne
  simp only [finalizedRow, newKey, hfirm] at hget ⊢
  simp only [finalize_letter, hfind, hfirm, hconv, hup, hold]
  simp [hget, hne']

theorem export_trace_cleanup (env : Env) (db : List GeneratedLetter) (lid fid : Nat)
    (letter : GeneratedLetter) (old_key : List Char)
    (hfind : dbFind db lid = some letter) (hfirm : letter.firm_id = fid)
    (hconv : env.convertOk letter.content = true) (hup : env.uploadOk = true)
    (hold : letter.docx_s3_key = some old_key) (hne : old_key ≠ newKey fid letter) :
    (export_letter env db lid fid).trace
      = [.put env.bucket (newKey fid letter), .dbCommit, .delete env.bucket old_key,
         .presign env.bucket (newKey fid letter)] := by
  simp only [newKey] at hne ⊢
  simp only [export_letter, hfind, hfirm, hconv, hup, hold]
  rw [if_pos hne]
  by_cases hp : env.presignOk <;> simp [hp]

/-! ## Claims -/

/-- C2, counterexample: delivering the Text event `"a\nb"` to the builder
emits a run whose text is `"ab"`, not `"a b"` — the non-empty trimmed
lines are joined with no separator. -/
theorem C2_counterexample :
    (buildDoc [HtmlEvent.text "a\nb".toList]).blocks
      = [{ style := .normal,
           runs := [{ text := "ab".toList, bold := false, italic := false }] }]
    ∧ "ab".toList ≠ "a b".toList := by
  constructor <;> decide

/-- C2, amended: on a Text event the builder emits exactly one run whose
text is the code's normalization `normalizeText` (and no run when it is
empty): the input is split on newlines, each line trimmed, the non-empty
trimmed lines concatenated in order with no separator except that a
whitespace-only line contributes a single space once some content was
already collected (whitespace in the Python sense, including Unicode
spaces such as the no-break space `\xa0`), and the result trimmed.  In
particular `"a\nb"` yields `"ab"`, while `"a\n \nb"` and `"a\n\xa0\nb"`
yield `"a b"`, and whitespace-only input emits no run. -/
theorem C2_amended (data : List Char) :
    (buildDoc [HtmlEvent.text data]).blocks
      = (if normalizeText data = [] then []
         else [{ style := .normal,
                 runs := [{ text := normalizeText data,
                            bold := false, italic := false }] }])
    ∧ normalizeText "a\nb".toList = "ab".toList
    ∧ normalizeText "a\n \nb".toList = "a b".toList
    ∧ normalizeText "a\n\xa0\nb".toList = "a b".toList
    ∧ normalizeText " \n \xa0 ".toList = [] := by
  refine ⟨?_, by decide, by decide, by decide, by decide⟩
  by_cases h : normalizeText data = []
  · simp [buildDoc, stepEvent, handle_data, h, initState]
  · simp [buildDoc, stepEvent, handle_data, h, initState, ensure_paragraph,
      add_paragraph, appendRunLast]

/-- C6: for every title and every valid date, `generate_filename` returns
at most 50 characters, the result ends in `".docx"`, and — being a total
function of its two arguments — it is deterministic (identical inputs give
identical outputs); totality of the embedding is the image of "never
raises". -/
theorem C6_generate_filename_bounds (title : List Char) (d : PyDate)
    (hy : d.year ≤ 9999) (hm : d.month ≤ 12) (hd : d.day ≤ 31) :
    (generate_filename title d).length ≤ 50
    ∧ docxExt <:+ generate_filename title d
    ∧ generate_filename title d = generate_filename title d := by
  refine ⟨generate_filename_length title d hy hm hd, ?_, rfl⟩
  simp only [generate_filename]
  split
  · split
    · exact docxExt_suffix_compose _ _
    · exact suffix_append_right _ (List.suffix_append _ _)
  · exact docxExt_suffix_compose _ _

/-- C6, witness: the 500-`'A'` title of the spec's test at 2024-01-15. -/
theorem C6_generate_filename_bounds_witness :
    (generate_filename (List.replicate 500 'A') ⟨2024, 1, 15⟩).length ≤ 50
    ∧ docxExt <:+ generate_filename (List.replicate 500 'A') ⟨2024, 1, 15⟩
    ∧ generate_filename (List.replicate 500 'A') ⟨2024, 1, 15⟩
        = generate_filename (List.replicate 500 'A') ⟨2024, 1, 15⟩ :=
  C6_generate_filename_bounds (List.replicate 500 'A') ⟨2024, 1, 15⟩
    (by decide) (by decide) (by decide)

/-- C7: the builder on `"<b>A<i>B</i>C</b>"` produces exactly one
paragraph block with exactly the three runs `("A", bold)`,
`("B", bold+italic)`, `("C", bold)` — closing `</i>` removes only the
most recently pushed italic marker and leaves bold active. -/
theorem C7_nested_formatting :
    (feedHtml "<b>A<i>B</i>C</b>".toList).blocks
      = [{ style := .normal,
           runs := [{ text := "A".toList, bold := true, italic := false },
                    { text := "B".toList, bold := true, italic := true },
                    { text := "C".toList, bold := true, italic := false }] }] := by
  decide

/-- C8: `generate_filename "Case #2024-001!!" 2024-01-15` strips `#` and
`!`, collapses the space to `_`, and keeps digits and hyphens, yielding
exactly `"Demand_Letter_Case_2024-001_2024-01-15.docx"`. -/
theorem C8_filename_example :
    generate_filename "Case #2024-001!!".toList ⟨2024, 1, 15⟩
      = "Demand_Letter_Case_2024-001_2024-01-15.docx".toList := by
  decide

/-- C9: feeding `"</b>hello"` — an end tag with no matching open — the
end tag is a no-op (the builder is a total function, so no error is
possible in the embedding) and the text produces a single unstyled run in
an implicitly opened paragraph. -/
theorem C9_malformed_close :
    (feedHtml "</b>hello".toList).blocks
      = [{ style := .normal,
           runs := [{ text := "hello".toList, bold := false, italic := false }] }] := by
  decide

/-- C10: when every character of the title is outside the allowed class
(not ASCII alphanumeric, not Python whitespace, not underscore or
hyphen), the sanitized
title is empty and the result is `"Demand_Letter__" + date + ".docx"`
with a double underscore, for every date — the date-only fallback (single
underscore) is never taken; for dates of four-digit years the composed
length is exactly 30, within the 50-character bound. -/
theorem C10_all_stripped_title (title : List Char) (d : PyDate)
    (hall : ∀ c ∈ title, allowedInFilename c = false) :
    generate_filename title d = "Demand_Letter__".toList ++ (formatDate d ++ docxExt)
    ∧ (1000 ≤ d.year → d.year ≤ 9999 → d.month ≤ 12 → d.day ≤ 31 →
        (generate_filename title d).length = 30) := by
  have hmain := generate_filename_all_stripped title d hall
  refine ⟨hmain, fun h1 h2 h3 h4 => ?_⟩
  rw [hmain]
  have hyear := decimalDigits_length_year d.year h1 h2
  have hmon := pad2_length d.month (by omega)
  have hday := pad2_length d.day (by omega)
  have hhead : ("Demand_Letter__".toList : List Char).length = 15 := by decide
  simp only [List.length_append, docxExt_length, formatDate, List.length_cons, hhead]
  omega

/-- C10, witness: the title `"###"` (all characters disallowed) at
2024-01-15. -/
theorem C10_all_stripped_title_witness :
    generate_filename "###".toList ⟨2024, 1, 15⟩
        = "Demand_Letter__".toList ++ (formatDate ⟨2024, 1, 15⟩ ++ docxExt)
    ∧ (generate_filename "###".toList ⟨2024, 1, 15⟩).length = 30 :=
  ⟨(C10_all_stripped_title "###".toList ⟨2024, 1, 15⟩ (by decide)).1,
   (C10_all_stripped_title "###".toList ⟨2024, 1, 15⟩ (by decide)).2
     (by decide) (by decide) (by decide) (by decide)⟩

/-- C1, counterexample: an Export call in which the upload succeeds but
the presign fails raises `S3UploadException` — yet the persisted letter
record has changed (`docx_s3_key` was committed to the new key before the
presign), contradicting "the persisted Letter record is left unchanged". -/
theorem C1_counterexample :
    (export_letter presignFailEnv [sampleLetter] 1 1).result
      = .error (.s3Upload "Failed to generate download URL")
    ∧ (export_letter presignFailEnv [sampleLetter] 1 1).db ≠ [sampleLetter] := by
  constructor <;> decide

/-- C1, amended: if the upload fails, both Finalize and Export raise
`S3UploadException` with the letter record unchanged.  A presign failure,
however, is not covered by the claim's guarantee: Export raises
`S3UploadException` only after the record has been committed with the new
key, and Finalize does not raise at all — the presign failure is swallowed
inside `get_letter_by_id` and the call returns the finalized letter with
`docx_url = None`, the record persisted. -/
theorem C1_store_failure_semantics
    (env₁ env₂ : Env) (db : List GeneratedLetter) (lid fid : Nat)
    (letter : GeneratedLetter)
    (hfind : dbFind db lid = some letter)
    (hfirm : letter.firm_id = fid)
    (hconv₁ : env₁.convertOk letter.content = true)
    (hup₁ : env₁.uploadOk = false)
    (hconv₂ : env₂.convertOk letter.content = true)
    (hup₂ : env₂.uploadOk = true)
    (hsign₂ : env₂.presignOk = false) :
    (export_letter env₁ db lid fid).result
        = .error (.s3Upload "Failed to upload DOCX file to S3")
    ∧ (export_letter env₁ db lid fid).db = db
    ∧ (finalize_letter env₁ db lid fid).result
        = .error (.s3Upload "Failed to upload DOCX file to S3")
    ∧ (finalize_letter env₁ db lid fid).db = db
    ∧ (export_letter env₂ db lid fid).result
        = .error (.s3Upload "Failed to generate download URL")
    ∧ (export_letter env₂ db lid fid).db = dbUpdate db (exportedRow env₂ fid letter)
    ∧ (finalize_letter env₂ db lid fid).result
        = .ok { id := letter.id, title := letter.title, content := letter.content,
                status := "created", template_id := letter.template_id,
                template_name := letter.template_name,
                source_documents := letter.source_documents,
                docx_url := none,
                created_at := letter.created_at, updated_at := env₂.now }
    ∧ (finalize_letter env₂ db lid fid).db = dbUpdate db (finalizedRow env₂ fid letter) := by
  have e1 := export_upload_fail env₁ db lid fid letter hfind hfirm hconv₁ hup₁
  have f1 := finalize_upload_fail env₁ db lid fid letter hfind hfirm hconv₁ hup₁
  have e2 := export_result_db env₂ db lid fid letter hfind hfirm hconv₂ hup₂
  have f2 := finalize_success env₂ db lid fid letter hfind hfirm hconv₂ hup₂
  refine ⟨?_, ?_, ?_, ?_, ?_, ?_, ?_, ?_⟩
  · rw [e1]
  · rw [e1]
  · rw [f1]
  · rw [f1]
  · rw [e2.1, hsign₂]; simp
  · exact e2.2
  · rw [f2.1, hsign₂]; simp
  · exact f2.2

/-- C1, witness: the amended theorem at the sample letter, with the
upload-failing and the presign-failing environments. -/
theorem C1_store_failure_semantics_witness :
    (export_letter uploadFailEnv [sampleLetter] 1 1).result
        = .error (.s3Upload "Failed to upload DOCX file to S3")
    ∧ (export_letter uploadFailEnv [sampleLetter] 1 1).db = [sampleLetter]
    ∧ (finalize_letter uploadFailEnv [sampleLetter] 1 1).result
        = .error (.s3Upload "Failed to upload DOCX file to S3")
    ∧ (finalize_letter uploadFailEnv [sampleLetter] 1 1).db = [sampleLetter]
    ∧ (export_letter presignFailEnv [sampleLetter] 1 1).result
        = .error (.s3Upload "Failed to generate download URL")
    ∧ (export_letter presignFailEnv [sampleLetter] 1 1).db
        = dbUpdate [sampleLetter] (exportedRow presignFailEnv 1 sampleLetter)
    ∧ (finalize_letter presignFailEnv [sampleLetter] 1 1).result
        = .ok { id := sampleLetter.id, title := sampleLetter.title,
                content := sampleLetter.content, status := "created",
                template_id := sampleLetter.template_id,
                template_name := sampleLetter.template_name,
                source_documents := sampleLetter.source_documents,
                docx_url := none,
                created_at := sampleLetter.created_at,
                updated_at := presignFailEnv.now }
    ∧ (finalize_letter presignFailEnv [sampleLetter] 1 1).db
        = dbUpdate [sampleLetter] (finalizedRow presignFailEnv 1 sampleLetter) :=
  C1_store_failure_semantics uploadFailEnv presignFailEnv [sampleLetter] 1 1 sampleLetter
    rfl rfl rfl rfl rfl rfl rfl

/-- C3, counterexample: in a successful Export call whose old key differs
from the new key, the database commit happens before the old-artifact
delete — the trace is Put, Commit, Delete, Presign, so the claimed
"deletion precedes the record persist" is false for Export. -/
theorem C3_counterexample :
    (export_letter okEnv [sampleLetter] 1 1).trace
      = [.put "exports" (newKey 1 sampleLetter), .dbCommit,
         .delete "exports" "old/key.docx".toList,
         .presign "exports" (newKey 1 sampleLetter)]
    ∧ (export_letter okEnv [sampleLetter] 1 1).trace.indexOf S3Event.dbCommit
        < (export_letter okEnv [sampleLetter] 1 1).trace.indexOf
            (S3Event.delete "exports" "old/key.docx".toList) := by
  constructor <;> decide

/-- C3, amended: within one call with a non-empty old key differing from
the new key, the upload of the new artifact always precedes the deletion
of the old one; the database persist comes after the delete in Finalize
(Put, Delete, Commit, Presign) but before the delete in Export
(Put, Commit, Delete, Presign). -/
theorem C3_effect_order
    (env : Env) (db : List GeneratedLetter) (lid fid : Nat)
    (letter : GeneratedLetter) (old_key : List Char)
    (hfind : dbFind db lid = some letter) (hfirm : letter.firm_id = fid)
    (hconv : env.convertOk letter.content = true) (hup : env.uploadOk = true)
    (hold : letter.docx_s3_key = some old_key) (hne : old_key ≠ newKey fid letter) :
    (finalize_letter env db lid fid).trace
      = [.put env.bucket (newKey fid letter), .delete env.bucket old_key, .dbCommit,
         .presign env.bucket (newKey fid letter)]
    ∧ (export_letter env db lid fid).trace
      = [.put env.bucket (newKey fid letter), .dbCommit, .delete env.bucket old_key,
         .presign env.bucket (newKey fid letter)] :=
  ⟨finalize_trace_cleanup env db lid fid letter old_key hfind hfirm hconv hup hold hne,
   export_trace_cleanup env db lid fid letter old_key hfind hfirm hconv hup hold hne⟩

/-- C3, witness: the amended theorem at the sample letter in the
all-success environment. -/
theorem C3_effect_order_witness :
    (finalize_letter okEnv [sampleLetter] 1 1).trace
      = [.put "exports" (newKey 1 sampleLetter),
         .delete "exports" "old/key.docx".toList, .dbCommit,
         .presign "exports" (newKey 1 sampleLetter)]
    ∧ (export_letter okEnv [sampleLetter] 1 1).trace
      = [.put "exports" (newKey 1 sampleLetter), .dbCommit,
         .delete "exports" "old/key.docx".toList,
         .presign "exports" (newKey 1 sampleLetter)] :=
  C3_effect_order okEnv [sampleLetter] 1 1 sampleLetter "old/key.docx".toList
    rfl rfl rfl rfl rfl (by decide)

/-- C4, counterexample: two letters that differ in content and status
produce identical successful export responses — the `ExportResponse`
carries only `download_url`, `expires_in`, `letter_id` and `message`, so
it cannot contain the claimed full letter view (id, title, content,
status, docx_url, timestamps). -/
theorem C4_counterexample :
    (export_letter_endpoint okEnv [letterA] 1 1).result
      = (export_letter_endpoint okEnv [letterB] 1 1).result
    ∧ letterA.content ≠ letterB.content
    ∧ letterA.status ≠ letterB.status := by
  refine ⟨by decide, by decide, by decide⟩

/-- C4, amended: the response of a successful Export call is an
`ExportResponse` containing `download_url` (the presigned URL of the new
key), `expires_in = 3600`, the bare `letter_id`, and the success message —
no letter object is included (only Finalize returns the full letter
view). -/
theorem C4_export_response_shape
    (env : Env) (db : List GeneratedLetter) (fid lid : Nat)
    (letter : GeneratedLetter)
    (hfind : dbFind db lid = some letter) (hfirm : letter.firm_id = fid)
    (hconv : env.convertOk letter.content = true) (hup : env.uploadOk = true)
    (hsign : env.presignOk = true) :
    (export_letter_endpoint env db fid lid).result
      = .ok { download_url := env.url (newKey fid letter), expires_in := 3600,
              letter_id := lid, message := "Letter exported successfully" } := by
  have h := (export_result_db env db lid fid letter hfind hfirm hconv hup).1
  rw [hsign] at h
  simp only [if_true] at h
  simp [export_letter_endpoint, h]

/-- C4, witness: the amended theorem at the sample letter in the
all-success environment. -/
theorem C4_export_response_shape_witness :
    (export_letter_endpoint okEnv [sampleLetter] 1 1).result
      = .ok { download_url := okEnv.url (newKey 1 sampleLetter), expires_in := 3600,
              letter_id := 1, message := "Letter exported successfully" } :=
  C4_export_response_shape okEnv [sampleLetter] 1 1 sampleLetter rfl rfl rfl rfl rfl

/-- C5: every successful Export call issues exactly one Put — regardless
of whether `docx_s3_key` is already set and the content unchanged — and a
second Export immediately after the first also issues exactly one Put, so
two consecutive Export calls issue two Puts in total. -/
theorem C5_export_always_regenerates
    (env : Env) (db : List GeneratedLetter) (lid fid : Nat)
    (letter : GeneratedLetter)
    (hfind : dbFind db lid = some letter) (hfirm : letter.firm_id = fid)
    (hconv : env.convertOk letter.content = true) (hup : env.uploadOk = true) :
    (export_letter env db lid fid).trace.countP isPut = 1
    ∧ (export_letter env (export_letter env db lid fid).db lid fid).trace.countP isPut = 1
    ∧ (export_letter env db lid fid).trace.countP isPut
        + (export_letter env (export_letter env db lid fid).db lid fid).trace.countP isPut
      = 2 := by
  have h1 := export_trace_put_count env db lid fid letter hfind hfirm hconv hup
  have hdb := (export_result_db env db lid fid letter hfind hfirm hconv hup).2
  have hfind' : dbFind (export_letter env db lid fid).db lid
      = some (exportedRow env fid letter) := by
    rw [hdb]
    exact dbFind_dbUpdate _ hfind (by simp [exportedRow])
  have h2 := export_trace_put_count env (export_letter env db lid fid).db lid fid
    (exportedRow env fid letter) hfind' (by simpa [exportedRow] using hfirm)
    (by simpa [exportedRow] using hconv) hup
  exact ⟨h1, h2, by omega⟩

/-- C5, witness: two consecutive exports of the sample letter, each
issuing exactly one Put. -/
theorem C5_export_always_regenerates_witness :
    (export_letter okEnv [sampleLetter] 1 1).trace.countP isPut = 1
    ∧ (export_letter okEnv (export_letter okEnv [sampleLetter] 1 1).db
        1 1).trace.countP isPut = 1
    ∧ (export_letter okEnv [sampleLetter] 1 1).trace.countP isPut
        + (export_letter okEnv (export_letter okEnv [sampleLetter] 1 1).db
            1 1).trace.countP isPut
      = 2 :=
  C5_export_always_regenerates okEnv [sampleLetter] 1 1 sampleLetter rfl rfl rfl rfl
